import Mathlib

/-!
Shallow embedding of the auth core of the fastapi-skeleton repository:
the token codec (src/app/core/security.py), the auth routes
(src/app/api/routes/auth.py) and the token-bucket rate limiter
(src/app/core/rate_limit.py).

Time is modelled as an integer count of seconds (the code works with
`datetime` values at second granularity); the rate limiter's monotonic
clock and float token counts are modelled over ℚ.  Randomness (uuid4 jti
generation) is externalized: callers pass the generated jti value as a
parameter.
-/

/-- Configuration surface (src/app/core/config.py `Settings`), restricted to
the fields the auth core reads.  Field defaults are the defaults of the
source `Settings` class. -/
structure Settings where
  SECRET_KEY : String := "change-me"
  ACCESS_TOKEN_EXPIRES_MINUTES : Int := 15
  REFRESH_TOKEN_EXPIRES_DAYS : Int := 7
deriving Repr, DecidableEq

/-- The default settings (no environment overrides). -/
def defaultSettings : Settings := {}

deriving instance DecidableEq for Except

/-- The JWT claim-set fields the code reads: `sub`, `exp`, `role`, `typ`,
`jti`.  A field the encoder did not set is `none` (Python `dict.get`
returns `None`). `exp` is epoch seconds. -/
structure Claims where
  sub : Option String := none
  exp : Int := 0
  role : Option String := none
  typ : Option String := none
  jti : Option String := none
deriving Repr, DecidableEq

/-- A wire token: either a well-formed signed token (its claim set plus the
key it was signed with — signature verification succeeds exactly when the
verifier holds the same symmetric key), or a malformed string. -/
inductive Token where
  | signed (claims : Claims) (key : String)
  | malformed
deriving Repr, DecidableEq

/-- The two failure kinds of `jose.jwt.decode` as the routes distinguish
them: `JWTError` on malformed input or signature mismatch, and
`ExpiredSignatureError` on an expired `exp` claim. -/
inductive DecodeError where
  | invalidToken
  | tokenExpired
deriving Repr, DecidableEq

/-- src/app/core/security.py `create_access_token`: claim set
`sub=subject, exp=now+ACCESS_TTL, role=role, typ="access"` signed with the
configured secret. -/
def create_access_token (st : Settings) (now : Int) (subject role : String) : Token :=
  Token.signed
    { sub := some subject
      exp := now + st.ACCESS_TOKEN_EXPIRES_MINUTES * 60
      role := some role
      typ := some "access" }
    st.SECRET_KEY

/-- src/app/core/security.py `create_refresh_token`: claim set
`sub=str(user_id), exp=now+REFRESH_TTL, jti=jti, typ="refresh"` signed with
the configured secret; returns `(token, jti, expiry)`.  The uuid4 draw is
externalized: `jti` is passed in by the caller. -/
def create_refresh_token (st : Settings) (now : Int) (user_id : Int) (jti : String) :
    Token × String × Int :=
  let expire := now + st.REFRESH_TOKEN_EXPIRES_DAYS * 86400
  (Token.signed
    { sub := some (toString user_id)
      exp := expire
      jti := some jti
      typ := some "refresh" }
    st.SECRET_KEY, jti, expire)

/-- src/app/core/security.py `decode_token`, i.e. `jwt.decode(token, key,
algorithms)`: fails `invalidToken` on malformed input or a signature made
with a different key; fails `tokenExpired` when the token is otherwise
valid but the current time has reached the `exp` claim.  The expiry
comparison itself lives in the external `jose` library, not in this
repository; it is modelled from the spec's decode contract, "TokenExpired
when current time ≥ claims expiry". -/
def decode_token (st : Settings) (now : Int) : Token → Except DecodeError Claims
  | Token.malformed => Except.error DecodeError.invalidToken
  | Token.signed c key =>
    if key ≠ st.SECRET_KEY then Except.error DecodeError.invalidToken
    else if c.exp ≤ now then Except.error DecodeError.tokenExpired
    else Except.ok c

/-- C2: decoding the token produced by `create_access_token subject role`
at any time strictly before its expiry succeeds and yields claims with the
given subject, the given role, and `typ = "access"`. -/
theorem decode_issueAccess_roundtrip (st : Settings) (subject role : String) (now t : Int)
    (h : t < now + st.ACCESS_TOKEN_EXPIRES_MINUTES * 60) :
    decode_token st t (create_access_token st now subject role) =
      Except.ok { sub := some subject
                  exp := now + st.ACCESS_TOKEN_EXPIRES_MINUTES * 60
                  role := some role
                  typ := some "access" } := by
  simp [decode_token, create_access_token, not_le.mpr h]

/-- Witness for C2 at concrete inputs: default settings, subject "42",
role "admin", issued at time 0, decoded at time 100 (before 15·60 = 900). -/
theorem decode_issueAccess_roundtrip_witness :
    (100 : Int) < 0 + defaultSettings.ACCESS_TOKEN_EXPIRES_MINUTES * 60 ∧
      decode_token defaultSettings 100 (create_access_token defaultSettings 0 "42" "admin") =
        Except.ok { sub := some "42"
                    exp := 0 + defaultSettings.ACCESS_TOKEN_EXPIRES_MINUTES * 60
                    role := some "admin"
                    typ := some "access" } :=
  ⟨by decide, decode_issueAccess_roundtrip defaultSettings "42" "admin" 0 100 (by decide)⟩

/-- C3: decoding an issued refresh token at any time at or after the
configured TTL has elapsed fails with `tokenExpired`, not `invalidToken`,
even though its signature is the untouched, valid one. -/
theorem decode_refresh_after_ttl (st : Settings) (uid : Int) (jti : String) (now t : Int)
    (h : now + st.REFRESH_TOKEN_EXPIRES_DAYS * 86400 ≤ t) :
    decode_token st t (create_refresh_token st now uid jti).1 =
        Except.error DecodeError.tokenExpired ∧
      decode_token st t (create_refresh_token st now uid jti).1 ≠
        Except.error DecodeError.invalidToken := by
  constructor
  · simp [decode_token, create_refresh_token, h]
  · simp [decode_token, create_refresh_token, h]

/-- Witness for C3 at concrete inputs: default settings, user 1, issued at
time 0, decoded exactly at the TTL boundary 7·86400 = 604800. -/
theorem decode_refresh_after_ttl_witness :
    (0 : Int) + defaultSettings.REFRESH_TOKEN_EXPIRES_DAYS * 86400 ≤ 604800 ∧
      decode_token defaultSettings 604800 (create_refresh_token defaultSettings 0 1 "j1").1 =
          Except.error DecodeError.tokenExpired ∧
        decode_token defaultSettings 604800 (create_refresh_token defaultSettings 0 1 "j1").1 ≠
          Except.error DecodeError.invalidToken :=
  ⟨by decide, decode_refresh_after_ttl defaultSettings 1 "j1" 0 604800 (by decide)⟩

/-- Python truthiness of an optional string (`if not jti` in the routes):
falsy exactly when the value is `None` or the empty string. -/
def pyTruthy : Option String → Bool
  | none => false
  | some s => s ≠ ""

/-- A row of the `users` table as the auth routes read it (src/app/db/models.py
is imported by the routes but not present under src/; fields are the ones
the routes access: id, email, hashed_password, role, is_active). -/
structure User where
  id : Int
  email : String
  hashed_password : String
  role : String
  is_active : Bool
deriving Repr, DecidableEq

/-- A row of the `refresh_tokens` table: the persisted RefreshRecord
(user_id, jti, expires_at, revoked), as created by `login` and read by
`refresh` and `logout`. -/
structure RefreshRecord where
  user_id : Int
  jti : String
  expires_at : Int
  revoked : Bool
deriving Repr, DecidableEq

/-- The database state the auth routes read and write: the users table and
the refresh-token table. -/
structure State where
  users : List User
  store : List RefreshRecord
deriving Repr, DecidableEq

/-- `select(User).where(User.email == email)` + `scalar_one_or_none()`
(email is unique in the schema; `find?` returns the first match). -/
def findUserByEmail (email : String) (l : List User) : Option User :=
  l.find? (fun u => u.email == email)

/-- `select(User).where(User.id == uid)` + `scalar_one_or_none()`. -/
def findUserById (uid : Int) (l : List User) : Option User :=
  l.find? (fun u => u.id == uid)

/-- `select(RefreshToken).where(RefreshToken.jti == jti)` +
`scalar_one_or_none()` (jti is unique in the schema; `find?` returns the
first match). -/
def lookupRefresh (jti : String) (l : List RefreshRecord) : Option RefreshRecord :=
  l.find? (fun r => r.jti == jti)

/-- `rt.revoked = True` on the row matched by jti, then commit. -/
def revokeJti (jti : String) (l : List RefreshRecord) : List RefreshRecord :=
  l.map (fun r => if r.jti == jti then { r with revoked := true } else r)

/-- The distinct 401-failure kinds the auth routes raise, one constructor
per `HTTPException` detail string, plus the two failures the routes do not
catch: a duplicate-jti insert rejected by the unique column constraint and
an unparsable `sub` claim (`int(sub)` raising `ValueError`). -/
inductive AuthError where
  | invalidRefreshToken
  | invalidTokenType
  | invalidTokenPayload
  | tokenRevoked
  | tokenExpired
  | userInactiveOrMissing
  | unknownToken
  | invalidCredentials
  | duplicateToken
  | valueError
deriving Repr, DecidableEq

/-- src/app/api/routes/auth.py `login`, with password verification passed
in as the opaque `verify` primitive and the uuid4 jti draw passed in as
`jti`.  On success it appends a RefreshRecord with `revoked := false` and
returns the (access, refresh) token pair.  The duplicate-jti branch models
the unique `jti` column (schema per the spec; src/app/db/models.py is not
under src/): the insert is rejected rather than overwriting a row. -/
def login (st : Settings) (verify : String → String → Bool) (s : State)
    (email password jti : String) (now : Int) :
    Except AuthError (Token × Token) × State :=
  match findUserByEmail email s.users with
  | none => (Except.error AuthError.invalidCredentials, s)
  | some user =>
    if !verify password user.hashed_password then
      (Except.error AuthError.invalidCredentials, s)
    else
      let access := create_access_token st now (toString user.id) user.role
      let r := create_refresh_token st now user.id jti
      match lookupRefresh r.2.1 s.store with
      | some _ => (Except.error AuthError.duplicateToken, s)
      | none =>
        (Except.ok (access, r.1),
         { s with store := s.store ++
             [{ user_id := user.id, jti := r.2.1, expires_at := r.2.2, revoked := false }] })

/-- Digit-string accumulator for `pyInt?`. -/
def parseNatAux : List Char -> Nat -> Option Nat
  | [], acc => some acc
  | ch :: rest, acc =>
    if ch.isDigit then parseNatAux rest (acc * 10 + (ch.toNat - 48))
    else none

/-- Python `int(sub)` on the shapes the route can receive: an optional
minus sign followed by decimal digits; anything else raises `ValueError`,
modelled as `none`. -/
def pyInt? (s : String) : Option Int :=
  match s.data with
  | [] => none
  | ch :: rest =>
    if ch = '-' then
      match rest with
      | [] => none
      | _ => (parseNatAux rest 0).map (fun n => -(n : Int))
    else (parseNatAux s.data 0).map (fun n => (n : Int))

/-- src/app/api/routes/auth.py `refresh`.  The route wraps `decode_token`
in `except Exception`, so every decode failure — including an expired
signed claim — is reported as "Invalid refresh token"; then: wrong typ →
"Invalid token type"; falsy jti or sub → "Invalid token payload"; missing
or revoked record → "Token revoked"; stored expiry reached → "Token
expired"; absent or inactive user → "User inactive or not found";
otherwise a fresh access token.  No write to the store on any path. -/
def refresh (st : Settings) (s : State) (tok : Token) (now : Int) :
    Except AuthError Token × State :=
  match decode_token st now tok with
  | Except.error _ => (Except.error AuthError.invalidRefreshToken, s)
  | Except.ok data =>
    if data.typ ≠ some "refresh" then (Except.error AuthError.invalidTokenType, s)
    else if !pyTruthy data.jti || !pyTruthy data.sub then
      (Except.error AuthError.invalidTokenPayload, s)
    else
      match lookupRefresh (data.jti.getD "") s.store with
      | none => (Except.error AuthError.tokenRevoked, s)
      | some rt =>
        if rt.revoked then (Except.error AuthError.tokenRevoked, s)
        else if rt.expires_at ≤ now then (Except.error AuthError.tokenExpired, s)
        else
          match pyInt? (data.sub.getD "") with
          | none => (Except.error AuthError.valueError, s)
          | some uid =>
            match findUserById uid s.users with
            | none => (Except.error AuthError.userInactiveOrMissing, s)
            | some user =>
              if !user.is_active then (Except.error AuthError.userInactiveOrMissing, s)
              else (Except.ok (create_access_token st now (toString user.id) user.role), s)

/-- src/app/api/routes/auth.py `logout`: decode under the same catch-all,
check typ, check jti truthy, look up the record — "Unknown token" when
absent — and otherwise set its revoked flag. -/
def logout (st : Settings) (s : State) (tok : Token) (now : Int) :
    Except AuthError Unit × State :=
  match decode_token st now tok with
  | Except.error _ => (Except.error AuthError.invalidRefreshToken, s)
  | Except.ok data =>
    if data.typ ≠ some "refresh" then (Except.error AuthError.invalidTokenType, s)
    else if !pyTruthy data.jti then (Except.error AuthError.invalidTokenPayload, s)
    else
      match lookupRefresh (data.jti.getD "") s.store with
      | none => (Except.error AuthError.unknownToken, s)
      | some _ => (Except.ok (), { s with store := revokeJti (data.jti.getD "") s.store })

/-- Helper: on every path, `refresh` returns the state it was given — the
route performs only `select` queries and never writes. -/
theorem refresh_state_eq (st : Settings) (s : State) (tok : Token) (now : Int) :
    (refresh st s tok now).2 = s := by
  unfold refresh
  repeat' split
  all_goals rfl

/-- Concrete fixture: one active user with id 1. -/
def userC : User :=
  { id := 1, email := "a@b.c", hashed_password := "h", role := "user", is_active := true }

/-- Concrete fixture: the refresh token issued to user 1 at time 0 under
the default settings; its signed expiry is 604800. -/
def tokC : Token := (create_refresh_token defaultSettings 0 1 "j1").1

/-- Concrete fixture: the state right after that login — a matching
non-revoked record whose stored expiry equals the signed expiry. -/
def stateC : State :=
  { users := [userC]
    store := [{ user_id := 1, jti := "j1", expires_at := 604800, revoked := false }] }

/-- Counterexample to C1: at time 604801 the token's expiry (604800) has
passed, yet `refresh` fails with the catch-all `invalidRefreshToken`
("Invalid refresh token"), not with `tokenExpired` — the expired token IS
reported as the merely-invalid error kind. -/
theorem refresh_expired_reported_invalid_counterexample :
    (604800 : Int) < 604801 ∧
      (refresh defaultSettings stateC tokC 604801).1 =
        Except.error AuthError.invalidRefreshToken ∧
      (refresh defaultSettings stateC tokC 604801).1 ≠
        Except.error AuthError.tokenExpired := by
  refine ⟨by decide, by decide, by decide⟩

/-- C1 amended: `refresh` fails with `tokenExpired` exactly in the window
where the stored record's expiry has been reached but the signed claim
still decodes; a refresh token whose signed expiry has passed fails at
decode and is reported as `invalidRefreshToken` instead. -/
theorem refresh_stored_expiry (st : Settings) (s : State) (c : Claims) (j : String)
    (r : RefreshRecord) (now : Int)
    (hexp : now < c.exp) (htyp : c.typ = some "refresh")
    (hjti : c.jti = some j) (hj : j ≠ "") (hsub : pyTruthy c.sub = true)
    (hl : lookupRefresh j s.store = some r)
    (hrev : r.revoked = false) (hst : r.expires_at ≤ now) :
    (refresh st s (Token.signed c st.SECRET_KEY) now).1 =
        Except.error AuthError.tokenExpired ∧
      (∀ c₂ : Claims, c₂.exp ≤ now →
        (refresh st s (Token.signed c₂ st.SECRET_KEY) now).1 =
          Except.error AuthError.invalidRefreshToken) := by
  constructor
  · have hdec : decode_token st now (Token.signed c st.SECRET_KEY) = Except.ok c := by
      simp [decode_token, not_le.mpr hexp]
    have hjt : pyTruthy (some j) = true := by
      simp [pyTruthy, hj]
    unfold refresh
    rw [hdec]
    simp [htyp, hjt, hsub, hjti, hl, hrev, hst]
  · intro c₂ h₂
    have hdec : decode_token st now (Token.signed c₂ st.SECRET_KEY) =
        Except.error DecodeError.tokenExpired := by
      simp [decode_token, h₂]
    unfold refresh
    rw [hdec]

/-- Witness for the amended C1 at concrete inputs: stored expiry 500 has
passed at time 600 while the signed claim (exp 604800) still decodes, so
`refresh` reports `tokenExpired`; and any claim set already past its
signed expiry is reported `invalidRefreshToken`. -/
theorem refresh_stored_expiry_witness :
    (refresh defaultSettings
        { users := [userC]
          store := [{ user_id := 1, jti := "j1", expires_at := 500, revoked := false }] }
        (Token.signed
          { sub := some "1", exp := 604800, jti := some "j1", typ := some "refresh" }
          defaultSettings.SECRET_KEY) 600).1 =
        Except.error AuthError.tokenExpired ∧
      (∀ c₂ : Claims, c₂.exp ≤ 600 →
        (refresh defaultSettings
          { users := [userC]
            store := [{ user_id := 1, jti := "j1", expires_at := 500, revoked := false }] }
          (Token.signed c₂ defaultSettings.SECRET_KEY) 600).1 =
            Except.error AuthError.invalidRefreshToken) :=
  refresh_stored_expiry defaultSettings
    { users := [userC]
      store := [{ user_id := 1, jti := "j1", expires_at := 500, revoked := false }] }
    { sub := some "1", exp := 604800, jti := some "j1", typ := some "refresh" }
    "j1" { user_id := 1, jti := "j1", expires_at := 500, revoked := false } 600
    (by decide) rfl rfl (by decide) (by decide) (by decide) rfl (by decide)

/-- An auth-route invocation, for stating invariants over arbitrary
operation sequences.  Each constructor carries the request inputs plus the
call time (and, for login, the uuid4 jti draw). -/
inductive Op where
  | login (email password jti : String) (now : Int)
  | refresh (tok : Token) (now : Int)
  | logout (tok : Token) (now : Int)

/-- The state transition of one route invocation (its response discarded). -/
def applyOp (st : Settings) (verify : String → String → Bool) (s : State) : Op → State
  | Op.login e p j n => (login st verify s e p j n).2
  | Op.refresh t n => (refresh st s t n).2
  | Op.logout t n => (logout st s t n).2

/-- The state after a sequence of route invocations. -/
def applyOps (st : Settings) (verify : String → String → Bool) (s : State)
    (ops : List Op) : State :=
  ops.foldl (applyOp st verify) s

/-- Helper: `login` never touches the users table and either leaves the
refresh-token table unchanged or appends one new record. -/
theorem login_store_cases (st : Settings) (verify : String → String → Bool) (s : State)
    (e p jt : String) (n : Int) :
    (login st verify s e p jt n).2.users = s.users ∧
      ((login st verify s e p jt n).2.store = s.store ∨
        ∃ rec, (login st verify s e p jt n).2.store = s.store ++ [rec]) := by
  unfold login
  rcases hfind : findUserByEmail e s.users with _ | user
  · simp [hfind]
  · by_cases hv : (!verify p user.hashed_password) = true
    · simp [hfind, hv]
    · rcases hlk : lookupRefresh (create_refresh_token st n user.id jt).2.1 s.store with _ | r
      · simp [hfind, hv, hlk]
      · simp [hfind, hv, hlk]

/-- Helper: `logout` never touches the users table and either leaves the
refresh-token table unchanged or revokes one jti in place. -/
theorem logout_store_cases (st : Settings) (s : State) (tok : Token) (n : Int) :
    (logout st s tok n).2.users = s.users ∧
      ((logout st s tok n).2.store = s.store ∨
        ∃ j, (logout st s tok n).2.store = revokeJti j s.store) := by
  unfold logout
  repeat' split
  all_goals simp
  exact Or.inr ⟨_, rfl⟩

/-- Helper: looking a jti up after a revoke pass finds the same record,
with its revoked flag raised when the jti matched. -/
theorem lookupRefresh_revokeJti (j j₂ : String) (l : List RefreshRecord) :
    lookupRefresh j (revokeJti j₂ l) =
      (lookupRefresh j l).map
        (fun r => if r.jti == j₂ then { r with revoked := true } else r) := by
  unfold lookupRefresh revokeJti
  rw [List.find?_map]
  have hp : ((fun r : RefreshRecord => r.jti == j) ∘ fun r =>
      if r.jti == j₂ then { r with revoked := true } else r) =
      (fun r : RefreshRecord => r.jti == j) := by
    funext r
    by_cases h : r.jti = j₂ <;> simp [h, Function.comp]
  rw [hp]

/-- What one route invocation may do to an individual stored record:
every field but `revoked` is preserved, and `revoked` is never reset. -/
def recordEvolves (r r₂ : RefreshRecord) : Prop :=
  r₂.jti = r.jti ∧ r₂.user_id = r.user_id ∧ r₂.expires_at = r.expires_at ∧
    (r.revoked = true → r₂.revoked = true)

theorem recordEvolves_refl (r : RefreshRecord) : recordEvolves r r :=
  ⟨rfl, rfl, rfl, fun h => h⟩

theorem recordEvolves_trans {a b c : RefreshRecord}
    (h₁ : recordEvolves a b) (h₂ : recordEvolves b c) : recordEvolves a c :=
  ⟨h₂.1.trans h₁.1, h₂.2.1.trans h₁.2.1, h₂.2.2.1.trans h₁.2.2.1,
    fun h => h₂.2.2.2 (h₁.2.2.2 h)⟩

/-- Pointwise evolution of the whole refresh-token table: existing rows
keep their position and evolve per `recordEvolves`; new rows may only be
appended. -/
def storeEvolves (a b : List RefreshRecord) : Prop :=
  a.length ≤ b.length ∧
    ∀ (i : ℕ) (ha : i < a.length) (hb : i < b.length),
      recordEvolves (a.get ⟨i, ha⟩) (b.get ⟨i, hb⟩)

theorem storeEvolves_refl (a : List RefreshRecord) : storeEvolves a a :=
  ⟨le_refl _, fun _ _ _ => recordEvolves_refl _⟩

theorem storeEvolves_trans {a b c : List RefreshRecord}
    (h₁ : storeEvolves a b) (h₂ : storeEvolves b c) : storeEvolves a c :=
  ⟨h₁.1.trans h₂.1, fun i ha hc =>
    recordEvolves_trans (h₁.2 i ha (lt_of_lt_of_le ha h₁.1))
      (h₂.2 i (lt_of_lt_of_le ha h₁.1) hc)⟩

theorem storeEvolves_append (a t : List RefreshRecord) : storeEvolves a (a ++ t) := by
  refine ⟨by simp, fun i ha hb => ?_⟩
  have : (a ++ t).get ⟨i, hb⟩ = a.get ⟨i, ha⟩ := by
    simp [List.getElem_append_left ha]
  rw [this]
  exact recordEvolves_refl _

theorem storeEvolves_revoke (j : String) (a : List RefreshRecord) :
    storeEvolves a (revokeJti j a) := by
  refine ⟨by simp [revokeJti], fun i ha hb => ?_⟩
  have hg : (revokeJti j a).get ⟨i, hb⟩ =
      (fun r => if r.jti == j then { r with revoked := true } else r) (a.get ⟨i, ha⟩) := by
    simp [revokeJti]
  rw [hg]
  by_cases h : a[i].jti = j <;> simp [recordEvolves, h]

/-- Helper: every single route invocation evolves the store pointwise. -/
theorem applyOp_storeEvolves (st : Settings) (verify : String → String → Bool)
    (s : State) (op : Op) : storeEvolves s.store (applyOp st verify s op).store := by
  cases op with
  | login e p j n =>
    rcases (login_store_cases st verify s e p j n).2 with h | ⟨rec, h⟩
    · rw [applyOp, h]
      exact storeEvolves_refl _
    · rw [applyOp, h]
      exact storeEvolves_append _ _
  | refresh t n =>
    rw [applyOp, refresh_state_eq]
    exact storeEvolves_refl _
  | logout t n =>
    rcases (logout_store_cases st s t n).2 with h | ⟨j, h⟩
    · rw [applyOp, h]
      exact storeEvolves_refl _
    · rw [applyOp, h]
      exact storeEvolves_revoke _ _

/-- Helper: evolution extends to arbitrary invocation sequences. -/
theorem applyOps_storeEvolves (st : Settings) (verify : String → String → Bool)
    (ops : List Op) (s : State) :
    storeEvolves s.store (applyOps st verify s ops).store := by
  induction ops generalizing s with
  | nil => exact storeEvolves_refl _
  | cons op ops ih =>
    have h₁ := applyOp_storeEvolves st verify s op
    have h₂ := ih (applyOp st verify s op)
    have : applyOps st verify s (op :: ops) =
        applyOps st verify (applyOp st verify s op) ops := rfl
    rw [this]
    exact storeEvolves_trans h₁ h₂

/-- C6: across any sequence of login/refresh/logout invocations, every
already-stored RefreshRecord keeps its position, its jti (and user id and
expiry) never change, and its revoked flag is monotonic: once true it is
never reset to false. -/
theorem refresh_record_invariant (st : Settings) (verify : String → String → Bool)
    (ops : List Op) (s : State) (i : ℕ) (ha : i < s.store.length) :
    ∃ hb : i < (applyOps st verify s ops).store.length,
      recordEvolves (s.store.get ⟨i, ha⟩) ((applyOps st verify s ops).store.get ⟨i, hb⟩) := by
  obtain ⟨hlen, hrec⟩ := applyOps_storeEvolves st verify ops s
  exact ⟨lt_of_lt_of_le ha hlen, hrec i ha (lt_of_lt_of_le ha hlen)⟩

/-- Concrete password-verification primitive for witnesses: plain equality
with the stored value. -/
def verifyW : String → String → Bool := fun p h => p == h

/-- Concrete fixture for the C6 witness. -/
def stateW6 : State :=
  { users := [userC]
    store := [{ user_id := 1, jti := "j1", expires_at := 604800, revoked := false }] }

/-- Concrete operation sequence for the C6 witness: a logout that revokes
jti "j1". -/
def opsW6 : List Op := [Op.logout tokC 10]

/-- Witness for C6: the single stored record survives a logout with its
jti, user id and expiry intact and its revoked flag only raised. -/
theorem refresh_record_invariant_witness :
    0 < stateW6.store.length ∧
      ∃ hb : 0 < (applyOps defaultSettings verifyW stateW6 opsW6).store.length,
        recordEvolves (stateW6.store.get ⟨0, by decide⟩)
          ((applyOps defaultSettings verifyW stateW6 opsW6).store.get ⟨0, hb⟩) :=
  ⟨by decide, refresh_record_invariant defaultSettings verifyW opsW6 stateW6 0 (by decide)⟩

/-- Helper: a jti lookup that hits a revoked record still hits a revoked
record after any single route invocation. -/
theorem applyOp_revoked_stays (st : Settings) (verify : String → String → Bool)
    (s : State) (op : Op) (j : String) (r : RefreshRecord)
    (hl : lookupRefresh j s.store = some r) (hr : r.revoked = true) :
    ∃ r₂, lookupRefresh j (applyOp st verify s op).store = some r₂ ∧ r₂.revoked = true := by
  cases op with
  | login e p jt n =>
    rcases (login_store_cases st verify s e p jt n).2 with h | ⟨rec, h⟩
    · rw [applyOp, h]
      exact ⟨r, hl, hr⟩
    · rw [applyOp, h]
      refine ⟨r, ?_, hr⟩
      unfold lookupRefresh at hl ⊢
      rw [List.find?_append, hl]
      rfl
  | refresh t n =>
    rw [applyOp, refresh_state_eq]
    exact ⟨r, hl, hr⟩
  | logout t n =>
    rcases (logout_store_cases st s t n).2 with h | ⟨j₂, h⟩
    · rw [applyOp, h]
      exact ⟨r, hl, hr⟩
    · rw [applyOp, h, lookupRefresh_revokeJti, hl]
      refine ⟨_, rfl, ?_⟩
      by_cases hj : r.jti = j₂ <;> simp [hj, hr]

/-- Helper: revoked records stay revoked across any invocation sequence. -/
theorem applyOps_revoked_stays (st : Settings) (verify : String → String → Bool)
    (s : State) (ops : List Op) (j : String) (r : RefreshRecord)
    (hl : lookupRefresh j s.store = some r) (hr : r.revoked = true) :
    ∃ r₂, lookupRefresh j (applyOps st verify s ops).store = some r₂ ∧ r₂.revoked = true := by
  induction ops generalizing s r with
  | nil => exact ⟨r, hl, hr⟩
  | cons op ops ih =>
    obtain ⟨r₂, hl₂, hr₂⟩ := applyOp_revoked_stays st verify s op j r hl hr
    exact ih (applyOp st verify s op) r₂ hl₂ hr₂

/-- Concrete fixture: the store holds a revoked record for jti "j1". -/
def stateRevoked : State :=
  { users := [userC]
    store := [{ user_id := 1, jti := "j1", expires_at := 604800, revoked := true }] }

/-- Counterexample to C7: the record for "j1" is revoked, yet at time
604801 — past the token's signed expiry 604800 — `refresh` fails with the
catch-all `invalidRefreshToken`, not with `tokenRevoked`, so the claim's
"regardless of the signed expiry" does not hold. -/
theorem refresh_after_revoke_counterexample :
    lookupRefresh "j1" stateRevoked.store =
        some { user_id := 1, jti := "j1", expires_at := 604800, revoked := true } ∧
      (refresh defaultSettings stateRevoked tokC 604801).1 =
        Except.error AuthError.invalidRefreshToken ∧
      (refresh defaultSettings stateRevoked tokC 604801).1 ≠
        Except.error AuthError.tokenRevoked := by
  refine ⟨by decide, by decide, by decide⟩

/-- C7 amended: once a record's revoked flag is true, every subsequent
`refresh` — after any further sequence of route invocations — with a token
carrying that jti fails with `tokenRevoked`, for as long as the token
still decodes (its signed expiry has not passed); once the signed expiry
passes, the failure becomes `invalidRefreshToken` instead. -/
theorem refresh_after_revoke (st : Settings) (verify : String → String → Bool)
    (s : State) (ops : List Op) (c : Claims) (j : String) (r : RefreshRecord) (now : Int)
    (hexp : now < c.exp) (htyp : c.typ = some "refresh") (hjti : c.jti = some j)
    (hj : j ≠ "") (hsub : pyTruthy c.sub = true)
    (hl : lookupRefresh j s.store = some r) (hr : r.revoked = true) :
    (refresh st (applyOps st verify s ops) (Token.signed c st.SECRET_KEY) now).1 =
      Except.error AuthError.tokenRevoked := by
  obtain ⟨r₂, hl₂, hr₂⟩ := applyOps_revoked_stays st verify s ops j r hl hr
  have hdec : decode_token st now (Token.signed c st.SECRET_KEY) = Except.ok c := by
    simp [decode_token, not_le.mpr hexp]
  have hjt : pyTruthy (some j) = true := by
    simp [pyTruthy, hj]
  unfold refresh
  rw [hdec]
  simp [htyp, hjt, hsub, hjti, hl₂, hr₂]

/-- Witness for the amended C7: with "j1" revoked, even after an
intervening successful login (which stores a fresh record "j2"), a refresh
carrying jti "j1" at time 100 (before its signed expiry) fails
`tokenRevoked`. -/
theorem refresh_after_revoke_witness :
    (refresh defaultSettings
        (applyOps defaultSettings verifyW stateRevoked [Op.login "a@b.c" "h" "j2" 20])
        (Token.signed
          { sub := some "1", exp := 604800, jti := some "j1", typ := some "refresh" }
          defaultSettings.SECRET_KEY) 100).1 =
      Except.error AuthError.tokenRevoked :=
  refresh_after_revoke defaultSettings verifyW stateRevoked [Op.login "a@b.c" "h" "j2" 20]
    { sub := some "1", exp := 604800, jti := some "j1", typ := some "refresh" }
    "j1" { user_id := 1, jti := "j1", expires_at := 604800, revoked := true } 100
    (by decide) rfl rfl (by decide) (by decide) rfl rfl

/-- Helper: inversion of a successful decode — the claims pass through
unchanged, the key matched, and the expiry had not been reached. -/
theorem decode_token_ok_inv (st : Settings) (now : Int) (c : Claims) (key : String)
    (data : Claims) (h : decode_token st now (Token.signed c key) = Except.ok data) :
    data = c ∧ key = st.SECRET_KEY ∧ now < c.exp := by
  simp only [decode_token] at h
  by_cases hkey : key ≠ st.SECRET_KEY
  · simp [hkey] at h
  · by_cases hce : c.exp ≤ now
    · simp [hkey, hce] at h
    · simp [hkey, hce] at h
      exact ⟨h.symm, not_not.mp hkey, lt_of_not_le hce⟩

/-- C8: a successful `refresh` leaves the entire state unchanged — no
record is created, revoked or modified — and, the token not being rotated,
the very same refresh token still succeeds against the resulting state at
any later time before both its signed expiry and its stored record's
expiry. -/
theorem refresh_no_rotation (st : Settings) (s : State) (c : Claims) (j : String)
    (r : RefreshRecord) (now now₂ : Int) (t : Token)
    (hok : (refresh st s (Token.signed c st.SECRET_KEY) now).1 = Except.ok t)
    (hjti : c.jti = some j) (hl : lookupRefresh j s.store = some r)
    (hexp₂ : now₂ < c.exp) (hst₂ : now₂ < r.expires_at) :
    (refresh st s (Token.signed c st.SECRET_KEY) now).2 = s ∧
      ∃ t₂, (refresh st ((refresh st s (Token.signed c st.SECRET_KEY) now).2)
        (Token.signed c st.SECRET_KEY) now₂).1 = Except.ok t₂ := by
  refine ⟨refresh_state_eq st s _ now, ?_⟩
  rw [refresh_state_eq]
  unfold refresh at hok
  repeat' split at hok
  all_goals try exact Except.noConfusion hok
  rename_i xdec data hdec htyp hpay xrt rt heq hrev hstexp xuid uid hsubi xu u hu hact
  obtain ⟨hdc, hkey, hnexp⟩ := decode_token_ok_inv st now c st.SECRET_KEY data hdec
  subst data
  have hp : pyTruthy c.jti = true ∧ pyTruthy c.sub = true := by
    simpa using hpay
  rw [hjti, Option.getD_some] at heq
  have hrt : rt = r := Option.some.inj (heq.symm.trans hl)
  subst hrt
  have hdec2 : decode_token st now₂ (Token.signed c st.SECRET_KEY) = Except.ok c := by
    simp [decode_token, not_le.mpr hexp₂]
  refine ⟨create_access_token st now₂ (toString u.id) u.role, ?_⟩
  unfold refresh
  rw [hdec2]
  have hjt : pyTruthy (some j) = true := by
    rw [← hjti]
    exact hp.1
  simp [htyp, hjt, hp.2, hjti, heq, hrev, not_le.mpr hst₂, hsubi, hu, hact]


/-- Witness for C8: a successful refresh at time 100 against `stateC`
leaves the state intact, and the same token refreshes again at time 200. -/
theorem refresh_no_rotation_witness :
    (refresh defaultSettings stateC
        (Token.signed
          { sub := some "1", exp := 604800, jti := some "j1", typ := some "refresh" }
          defaultSettings.SECRET_KEY) 100).2 = stateC ∧
      ∃ t₂, (refresh defaultSettings
          ((refresh defaultSettings stateC
            (Token.signed
              { sub := some "1", exp := 604800, jti := some "j1", typ := some "refresh" }
              defaultSettings.SECRET_KEY) 100).2)
          (Token.signed
            { sub := some "1", exp := 604800, jti := some "j1", typ := some "refresh" }
            defaultSettings.SECRET_KEY) 200).1 = Except.ok t₂ :=
  refresh_no_rotation defaultSettings stateC
    { sub := some "1", exp := 604800, jti := some "j1", typ := some "refresh" } "j1"
    { user_id := 1, jti := "j1", expires_at := 604800, revoked := false } 100 200
    (create_access_token defaultSettings 100 "1" "user")
    (by decide) rfl rfl (by decide) (by decide)

/-- Helper: login result when no user matches the email. -/
theorem login_eq_of_none (st : Settings) (verify : String → String → Bool) (s : State)
    (email password jti : String) (now : Int)
    (hfind : findUserByEmail email s.users = none) :
    login st verify s email password jti now =
      (Except.error AuthError.invalidCredentials, s) := by
  simp [login, hfind]

/-- Helper: login result when the password does not verify. -/
theorem login_eq_of_badpw (st : Settings) (verify : String → String → Bool) (s : State)
    (email password jti : String) (now : Int) (user : User)
    (hfind : findUserByEmail email s.users = some user)
    (hv : verify password user.hashed_password = false) :
    login st verify s email password jti now =
      (Except.error AuthError.invalidCredentials, s) := by
  simp [login, hfind, hv]

/-- Helper: login result when the drawn jti already has a record. -/
theorem login_eq_of_dup (st : Settings) (verify : String → String → Bool) (s : State)
    (email password jti : String) (now : Int) (user : User) (r : RefreshRecord)
    (hfind : findUserByEmail email s.users = some user)
    (hv : verify password user.hashed_password = true)
    (hlk : lookupRefresh jti s.store = some r) :
    login st verify s email password jti now =
      (Except.error AuthError.duplicateToken, s) := by
  simp [login, hfind, hv, create_refresh_token, hlk]

/-- Helper: login result on full success — token pair returned and a fresh
non-revoked record appended. -/
theorem login_eq_of_ok (st : Settings) (verify : String → String → Bool) (s : State)
    (email password jti : String) (now : Int) (user : User)
    (hfind : findUserByEmail email s.users = some user)
    (hv : verify password user.hashed_password = true)
    (hlk : lookupRefresh jti s.store = none) :
    login st verify s email password jti now =
      (Except.ok (create_access_token st now (toString user.id) user.role,
          (create_refresh_token st now user.id jti).1),
        { s with store := s.store ++
            [{ user_id := user.id, jti := jti,
               expires_at := now + st.REFRESH_TOKEN_EXPIRES_DAYS * 86400,
               revoked := false }] }) := by
  simp [login, hfind, hv, create_refresh_token, hlk]

/-- C9: `login` fails with `invalidCredentials` exactly when no user
matches the email or password verification against the stored hash fails;
on success it returns a token pair and the resulting store holds a fresh
non-revoked record under the drawn jti. -/
theorem login_spec (st : Settings) (verify : String → String → Bool) (s : State)
    (email password jti : String) (now : Int) :
    ((login st verify s email password jti now).1 = Except.error AuthError.invalidCredentials ↔
      findUserByEmail email s.users = none ∨
        ∃ u, findUserByEmail email s.users = some u ∧
          verify password u.hashed_password = false) ∧
      ∀ a rt, (login st verify s email password jti now).1 = Except.ok (a, rt) →
        ∃ u, findUserByEmail email s.users = some u ∧
          lookupRefresh jti (login st verify s email password jti now).2.store =
            some { user_id := u.id, jti := jti,
                   expires_at := now + st.REFRESH_TOKEN_EXPIRES_DAYS * 86400,
                   revoked := false } := by
  rcases hfind : findUserByEmail email s.users with _ | user
  · rw [login_eq_of_none st verify s email password jti now hfind]
    constructor
    · simp
    · intro a rt h
      simp at h
  · by_cases hv : verify password user.hashed_password = true
    · rcases hlk : lookupRefresh jti s.store with _ | r
      · rw [login_eq_of_ok st verify s email password jti now user hfind hv hlk]
        constructor
        · constructor
          · intro h
            simp at h
          · rintro (h | ⟨u, hu, hvf⟩)
            · exact Option.noConfusion h
            · cases Option.some.inj hu
              rw [hv] at hvf
              exact Bool.noConfusion hvf
        · intro a rt h
          refine ⟨user, rfl, ?_⟩
          show lookupRefresh jti (s.store ++
            [{ user_id := user.id, jti := jti,
               expires_at := now + st.REFRESH_TOKEN_EXPIRES_DAYS * 86400,
               revoked := false }]) = _
          unfold lookupRefresh at hlk ⊢
          rw [List.find?_append, hlk]
          simp
      · rw [login_eq_of_dup st verify s email password jti now user r hfind hv hlk]
        constructor
        · constructor
          · intro h
            simp at h
          · rintro (h | ⟨u, hu, hvf⟩)
            · exact Option.noConfusion h
            · cases Option.some.inj hu
              rw [hv] at hvf
              exact Bool.noConfusion hvf
        · intro a rt h
          simp at h
    · have hv₂ : verify password user.hashed_password = false := by
        simpa using hv
      rw [login_eq_of_badpw st verify s email password jti now user hfind hv₂]
      constructor
      · constructor
        · intro _
          exact Or.inr ⟨user, rfl, hv₂⟩
        · intro _
          rfl
      · intro a rt h
        simp at h

/-- Concrete fixture for the C9 witness: one user, empty token store. -/
def stateW9 : State := { users := [userC], store := [] }

/-- Witness for C9: logging in with matching credentials at time 0 leaves
a non-revoked record for the drawn jti "j1" in the store. -/
theorem login_spec_witness :
    ∃ u, findUserByEmail "a@b.c" stateW9.users = some u ∧
      lookupRefresh "j1" (login defaultSettings verifyW stateW9 "a@b.c" "h" "j1" 0).2.store =
        some { user_id := u.id, jti := "j1",
               expires_at := 0 + defaultSettings.REFRESH_TOKEN_EXPIRES_DAYS * 86400,
               revoked := false } :=
  (login_spec defaultSettings verifyW stateW9 "a@b.c" "h" "j1" 0).2
    (create_access_token defaultSettings 0 "1" "user")
    ((create_refresh_token defaultSettings 0 1 "j1").1) (by decide)

/-- C10: for a decodable refresh token whose jti is absent from the store,
`refresh` fails with the very `tokenRevoked` error that a revoked record
produces (the refresh path has no distinct unknown-token error), while
`logout` with the same token fails with `unknownToken`. -/
theorem unknown_jti_errors (st : Settings) (s : State) (c : Claims) (j : String) (now : Int)
    (hexp : now < c.exp) (htyp : c.typ = some "refresh") (hjti : c.jti = some j)
    (hj : j ≠ "") (hsub : pyTruthy c.sub = true)
    (habs : lookupRefresh j s.store = none) :
    (refresh st s (Token.signed c st.SECRET_KEY) now).1 =
        Except.error AuthError.tokenRevoked ∧
      (logout st s (Token.signed c st.SECRET_KEY) now).1 =
        Except.error AuthError.unknownToken := by
  have hdec : decode_token st now (Token.signed c st.SECRET_KEY) = Except.ok c := by
    simp [decode_token, not_le.mpr hexp]
  have hjt : pyTruthy (some j) = true := by
    simp [pyTruthy, hj]
  constructor
  · unfold refresh
    rw [hdec]
    simp [htyp, hjt, hsub, hjti, habs]
  · unfold logout
    rw [hdec]
    simp [htyp, hjt, hjti, habs]

/-- Witness for C10: a validly signed, unexpired refresh token with jti
"jX" against an empty store — refresh says revoked, logout says unknown. -/
theorem unknown_jti_errors_witness :
    (refresh defaultSettings stateW9
        (Token.signed
          { sub := some "1", exp := 604800, jti := some "jX", typ := some "refresh" }
          defaultSettings.SECRET_KEY) 100).1 =
        Except.error AuthError.tokenRevoked ∧
      (logout defaultSettings stateW9
        (Token.signed
          { sub := some "1", exp := 604800, jti := some "jX", typ := some "refresh" }
          defaultSettings.SECRET_KEY) 100).1 =
        Except.error AuthError.unknownToken :=
  unknown_jti_errors defaultSettings stateW9
    { sub := some "1", exp := 604800, jti := some "jX", typ := some "refresh" }
    "jX" 100 (by decide) rfl rfl (by decide) (by decide) rfl

/-- src/app/core/rate_limit.py `TokenBucket`: integer capacity, float
token count, float refill rate, and the last-refill timestamp; Python
floats and the monotonic clock are modelled over ℚ. -/
structure TokenBucket where
  capacity : Int
  tokens : ℚ
  refill_rate : ℚ
  last_refill : ℚ
deriving Repr, DecidableEq

/-- `TokenBucket.__init__`: the bucket starts full, stamped with the
construction time (the `time.monotonic()` call is the explicit `now`). -/
def TokenBucket.init (capacity : Int) (refill_rate : ℚ) (now : ℚ) : TokenBucket :=
  { capacity := capacity
    tokens := (capacity : ℚ)
    refill_rate := refill_rate
    last_refill := now }

/-- `TokenBucket.allow`: lazily add `elapsed × refill_rate` tokens capped
at capacity (only when that refill is positive), then if the tokens cover
`cost` subtract it and allow, else deny without touching the tokens. -/
def TokenBucket.allow (b : TokenBucket) (now : ℚ) (cost : Int) : Bool × TokenBucket :=
  let elapsed := now - b.last_refill
  let refill := elapsed * b.refill_rate
  let b₂ := if refill > 0 then
      { b with tokens := min (b.capacity : ℚ) (b.tokens + refill), last_refill := now }
    else b
  if b₂.tokens ≥ (cost : ℚ) then (true, { b₂ with tokens := b₂.tokens - (cost : ℚ) })
  else (false, b₂)

/-- src/app/core/rate_limit.py `InMemoryStore`: the keyed bucket registry,
as an association list whose head entry shadows older ones (dict
assignment replaces the binding). -/
structure InMemoryStore where
  buckets : List (String × TokenBucket)
deriving Repr, DecidableEq

/-- `InMemoryStore.get_bucket`: compute `rate = capacity/window`; reuse
the bucket stored at `key` only when both its capacity and its refill rate
match, otherwise create, register and return a fresh full bucket. -/
def InMemoryStore.get_bucket (s : InMemoryStore) (key : String)
    (capacity window : Int) (now : ℚ) : TokenBucket × InMemoryStore :=
  let rate : ℚ := (capacity : ℚ) / (window : ℚ)
  match s.buckets.lookup key with
  | some b =>
    if b.capacity ≠ capacity ∨ b.refill_rate ≠ rate then
      let fresh := TokenBucket.init capacity rate now
      (fresh, { buckets := (key, fresh) :: s.buckets })
    else (b, s)
  | none =>
    let fresh := TokenBucket.init capacity rate now
    (fresh, { buckets := (key, fresh) :: s.buckets })

/-- Run a sequence of unit-cost `allow` calls at the given synthetic
timestamps, collecting the per-call results. -/
def allowList (times : List ℚ) (b : TokenBucket) : List Bool × TokenBucket :=
  match times with
  | [] => ([], b)
  | t :: ts =>
    let r := b.allow t 1
    let rest := allowList ts r.2
    (r.1 :: rest.1, rest.2)

/-- The capacity-5, window-60 bucket of the C4 scenario at token count `t`
and last refill `lr`. -/
def bq (t lr : ℚ) : TokenBucket :=
  { capacity := 5, tokens := t, refill_rate := (5 : ℚ) / 60, last_refill := lr }

/-- C4: starting from the registry-created full bucket with capacity 5 and
window 60 at synthetic time 0: five unit-cost `allow` calls at time 0 all
return true, the sixth returns false, and after advancing the clock to
time 12 (one fifth of the window) exactly one further call returns true —
the next call at that same time returns false. -/
theorem rate_limit_scenario :
    ((InMemoryStore.mk []).get_bucket "login" 5 60 0).1 = bq 5 0 ∧
      (allowList [0, 0, 0, 0, 0, 0, 12, 12] (bq 5 0)).1 =
        [true, true, true, true, true, false, true, false] := by
  constructor
  · norm_num [InMemoryStore.get_bucket, TokenBucket.init, bq]
  · have s1 : (bq 5 0).allow 0 1 = (true, bq 4 0) := by
      norm_num [TokenBucket.allow, bq]
    have s2 : (bq 4 0).allow 0 1 = (true, bq 3 0) := by
      norm_num [TokenBucket.allow, bq]
    have s3 : (bq 3 0).allow 0 1 = (true, bq 2 0) := by
      norm_num [TokenBucket.allow, bq]
    have s4 : (bq 2 0).allow 0 1 = (true, bq 1 0) := by
      norm_num [TokenBucket.allow, bq]
    have s5 : (bq 1 0).allow 0 1 = (true, bq 0 0) := by
      norm_num [TokenBucket.allow, bq]
    have s6 : (bq 0 0).allow 0 1 = (false, bq 0 0) := by
      norm_num [TokenBucket.allow, bq]
    have s7 : (bq 0 0).allow 12 1 = (true, bq 0 12) := by
      norm_num [TokenBucket.allow, bq, min_def]
    have s8 : (bq 0 12).allow 12 1 = (false, bq 0 12) := by
      norm_num [TokenBucket.allow, bq]
    simp only [allowList, s1, s2, s3, s4, s5, s6, s7, s8]

/-- C5: for an existing bucket configured as (c₀, w₀) (positive capacity
and window), a request with a different (capacity, window) pair discards
it and returns a fresh bucket whose token count equals the new capacity —
full, however depleted the old bucket was — while a request with the
unchanged pair returns the existing bucket with its current token count. -/
theorem get_bucket_reconfig (s : InMemoryStore) (k : String) (b : TokenBucket)
    (c₀ w₀ c₁ w₁ : Int) (now : ℚ)
    (hc₀ : 0 < c₀) (hw₀ : 0 < w₀) (hc₁ : 0 < c₁) (hw₁ : 0 < w₁)
    (hb : s.buckets.lookup k = some b)
    (hcap : b.capacity = c₀) (hrate : b.refill_rate = (c₀ : ℚ) / (w₀ : ℚ)) :
    ((c₁, w₁) ≠ (c₀, w₀) →
        (s.get_bucket k c₁ w₁ now).1 = TokenBucket.init c₁ ((c₁ : ℚ) / (w₁ : ℚ)) now ∧
          ((s.get_bucket k c₁ w₁ now).1).tokens = (c₁ : ℚ)) ∧
      ((c₁, w₁) = (c₀, w₀) → (s.get_bucket k c₁ w₁ now).1 = b) := by
  have hq0 : (c₁ : ℚ) ≠ 0 := Int.cast_ne_zero.mpr (ne_of_gt hc₁)
  have hw0q : (w₀ : ℚ) ≠ 0 := Int.cast_ne_zero.mpr (ne_of_gt hw₀)
  have hw1q : (w₁ : ℚ) ≠ 0 := Int.cast_ne_zero.mpr (ne_of_gt hw₁)
  constructor
  · intro hne
    have hcond : b.capacity ≠ c₁ ∨ b.refill_rate ≠ (c₁ : ℚ) / (w₁ : ℚ) := by
      by_cases hc : c₁ = c₀
      · subst hc
        have hw : w₁ ≠ w₀ := by
          intro h
          exact hne (by rw [h])
        right
        rw [hrate]
        intro heq
        have h₂ := (div_eq_div_iff hw0q hw1q).mp heq
        have h₃ : (w₁ : ℚ) = (w₀ : ℚ) := mul_left_cancel₀ hq0 h₂
        exact hw (Int.cast_injective h₃)
      · left
        rw [hcap]
        exact fun h => hc h.symm
    unfold InMemoryStore.get_bucket
    simp only [hb]
    rw [if_pos hcond]
    exact ⟨rfl, rfl⟩
  · intro heqp
    rw [Prod.mk.injEq] at heqp
    obtain ⟨hc, hw⟩ := heqp
    unfold InMemoryStore.get_bucket
    simp only [hb]
    rw [if_neg]
    push_neg
    refine ⟨by rw [hcap, hc], by rw [hrate, hc, hw]⟩

/-- Concrete depleted bucket for the C5 witness: capacity 5, window 60,
2 tokens left. -/
def bW5 : TokenBucket :=
  { capacity := 5
    tokens := 2
    refill_rate := ((5 : Int) : ℚ) / ((60 : Int) : ℚ)
    last_refill := 0 }

/-- Concrete registry for the C5 witness. -/
def storeW5 : InMemoryStore := { buckets := [("k", bW5)] }

/-- Witness for C5 at concrete inputs: requesting ("k", capacity 10,
window 60) against the (5, 60)-configured depleted bucket. -/
theorem get_bucket_reconfig_witness :
    (((10 : Int), (60 : Int)) ≠ ((5 : Int), (60 : Int)) →
        (storeW5.get_bucket "k" 10 60 3).1 =
            TokenBucket.init 10 (((10 : Int) : ℚ) / ((60 : Int) : ℚ)) 3 ∧
          ((storeW5.get_bucket "k" 10 60 3).1).tokens = ((10 : Int) : ℚ)) ∧
      (((10 : Int), (60 : Int)) = ((5 : Int), (60 : Int)) →
        (storeW5.get_bucket "k" 10 60 3).1 = bW5) :=
  get_bucket_reconfig storeW5 "k" bW5 5 60 10 60 3
    (by decide) (by decide) (by decide) (by decide) rfl rfl rfl
